import Mathlib

/-!
Verification of the command-routing and dispatch engine of
`sony_automator_controls/core.py` (Elliott's Sony Automator Controls).

The Python source is shallowly embedded: module-level mutable state
(the per-automator catalog cache, the running TCP servers, the capture
slot) becomes explicit state passed in and out of each function; the
remote HTTP fetch outcomes become oracle inputs (`FetchResults`,
`bindOk`); Python dictionaries keyed by item id become association
lists built in insertion order with overwrite-on-duplicate, matching
CPython dict semantics.  Names follow the source (`merge_automator_data`,
`process_tcp_command`, ...).
-/

namespace SAC

/-- A catalog item as the code handles it: a JSON object with an optional
`id`, optional `type`, a display `name`/`title`, and (for shortcuts) the
key-combination fields read by `fetch_automator_macros`.  `Option` fields
model dictionary keys that may be absent (`item.get(...)`). -/
structure Item where
  id : Option String := none
  name : String := ""
  itype : Option String := none
  control : Bool := false
  alt : Bool := false
  shift : Bool := false
  key : Option String := none
  title : String := ""
deriving DecidableEq, Repr

/-- Python `s.upper()` (ASCII case mapping), kept kernel-reducible by
working on the character list. -/
def pyUpper (s : String) : String := ⟨s.data.map Char.toUpper⟩

/-- Python `s.strip()`: drop leading and trailing whitespace. -/
def pyStrip (s : String) : String :=
  ⟨((s.data.dropWhile Char.isWhitespace).reverse.dropWhile Char.isWhitespace).reverse⟩

/-- Python `s.startswith(pre)`. -/
def pyStartsWith (s pre : String) : Bool := pre.data.isPrefixOf s.data

/-- Python `sep.join(parts)`. -/
def pyJoin (sep : String) : List String → String
  | [] => ""
  | p :: ps => ps.foldl (fun acc q => acc ++ sep ++ q) p

/-- Python truthiness of an optional string: `None` and `""` are falsy. -/
def strTruthy : Option String → Bool
  | none => false
  | some s => !s.data.isEmpty

/-- Python `a or b` on optional strings: `a` when truthy, else `b`. -/
def pyOrStr (a b : Option String) : Option String :=
  if strTruthy a then a else b

/-- One CPython dict assignment `d[k] = v`: overwrite in place when the key
exists (keeping its position), else append at the end. -/
def dictInsert (d : List (Option String × Item)) (kv : Option String × Item) :
    List (Option String × Item) :=
  if d.any (fun p => p.1 = kv.1) then
    d.map (fun p => if p.1 = kv.1 then kv else p)
  else
    d ++ [kv]

/-- `{item.get("id"): item for item in items}` — a dict built in list order,
later items with the same id overwriting earlier ones. -/
def itemsToDict (items : List Item) : List (Option String × Item) :=
  items.foldl (fun d it => dictInsert d (it.id, it)) []

/-- Python `d.get(k)` on an association list with unique keys. -/
def dictLookup (d : List (Option String × Item)) (k : Option String) : Option Item :=
  (d.find? (fun p => p.1 = k)).map (·.2)

/-- The per-item-type merge body of `merge_automator_data` (core.py 331-344):
`existing_items` and `new_items` are the two id-keyed dicts, `merged` is
rebuilt from `new_items` alone (both branches of the `if` store the new
item), and the cache list becomes `list(merged.values())`. -/
def mergeItems (old new : List Item) : List Item :=
  let existing_items := itemsToDict old
  let new_items := itemsToDict new
  let merged := new_items.foldl
    (fun m kv =>
      if existing_items.any (fun p => p.1 = kv.1) then dictInsert m kv
      else dictInsert m kv)
    ([] : List (Option String × Item))
  merged.map (·.2)

/-- One automator's cache entry: the value
`{"macros": [], "buttons": [], "shortcuts": [], "last_updated": None}`
created by `get_automator_cache` and updated by `merge_automator_data`. -/
structure AutomatorCache where
  macros : List Item := []
  buttons : List Item := []
  shortcuts : List Item := []
  last_updated : Option String := none
deriving DecidableEq, Repr

/-- The default entry `get_automator_cache` creates for an unseen id. -/
def emptyCache : AutomatorCache := {}

/-- The module-level `automator_data_cache` dict, keyed by automator id. -/
def Bank := String → Option AutomatorCache

/-- `get_automator_cache(automator_id)` (core.py 303-315): return the entry,
creating the default one first when the id is absent.  The first component
is the possibly-extended dict, the second the returned entry. -/
def get_automator_cache (bank : Bank) (automator_id : String) :
    Bank × AutomatorCache :=
  match bank automator_id with
  | some c => (bank, c)
  | none => (fun x => if x = automator_id then some emptyCache else bank x, emptyCache)

/-- `new_data` as `merge_automator_data` probes it: for each of the three
keys, `none` models the key being absent from the dict. -/
structure NewData where
  macros : Option (List Item) := none
  buttons : Option (List Item) := none
  shortcuts : Option (List Item) := none
deriving DecidableEq, Repr

/-- `merge_automator_data(automator_id, new_data)` (core.py 318-348): get or
create the entry, replace each item-type list whose key is in `new_data`
with the id-keyed merge, stamp `last_updated` (`now` stands for
`datetime.now().isoformat()`), and store the entry back.  The write to disk
(`save_automator_cache`) persists exactly the returned bank. -/
def merge_automator_data (bank : Bank) (automator_id : String)
    (new_data : NewData) (now : String) : Bank :=
  let cache := (get_automator_cache bank automator_id).2
  let cache := match new_data.macros with
    | some l => { cache with macros := mergeItems cache.macros l }
    | none => cache
  let cache := match new_data.buttons with
    | some l => { cache with buttons := mergeItems cache.buttons l }
    | none => cache
  let cache := match new_data.shortcuts with
    | some l => { cache with shortcuts := mergeItems cache.shortcuts l }
    | none => cache
  let cache := { cache with last_updated := some now }
  fun x => if x = automator_id then some cache else bank x

/-- A `tcp_commands[]` entry: id, name and the trigger string. -/
structure TCPCommand where
  id : String
  name : String := ""
  tcp_trigger : String
deriving DecidableEq, Repr

/-- A `command_mappings[]` entry.  `automator_id`, `item_type` and the legacy
`automator_macro_type` key may be absent or empty in stored configs. -/
structure CommandMapping where
  tcp_command_id : String
  automator_id : Option String := none
  automator_macro_id : String := ""
  automator_macro_name : String := ""
  item_type : Option String := none
  automator_macro_type : Option String := none
deriving DecidableEq, Repr

/-- An `automators[]` entry: a remote Automator instance. -/
structure AutomatorInstance where
  id : String
  name : String := ""
  url : String := ""
  enabled : Bool := false
deriving DecidableEq, Repr

/-- A `tcp_listeners[]` entry. -/
structure TCPListener where
  port : Nat
  enabled : Bool
deriving DecidableEq, Repr

/-- The configuration view (`config_data`) the engine reads. -/
structure Config where
  tcp_listeners : List TCPListener := []
  tcp_commands : List TCPCommand := []
  command_mappings : List CommandMapping := []
  automators : List AutomatorInstance := []
deriving Repr

/-- `get_automator_by_id` (core.py 351-360): first automator with the id. -/
def get_automator_by_id (cfg : Config) (automator_id : String) :
    Option AutomatorInstance :=
  cfg.automators.find? (fun a => a.id == automator_id)

/-- One `log_event(event_type, message)` record. -/
abbrev Event := String × String

/-- Python `url.rstrip("/")`: drop every trailing slash. -/
def rstripSlash (s : String) : String :=
  ⟨(s.data.reverse.dropWhile (fun c => c = '/')).reverse⟩

/-- `trigger_automator_macro` (core.py 481-541), with the module state made
explicit: `responseOk` is the oracle for `response.raise_for_status()`
succeeding.  Returns the logged events and the endpoint of the single
outbound GET, `none` when no HTTP call is issued.  Event messages follow the
source with surrounding quote characters elided. -/
def trigger_automator_macro (cfg : Config) (responseOk : Bool)
    (macro_id macro_name : String) (item_type : String)
    (automator_id : Option String) : List Event × Option String :=
  let sel : Option (Option AutomatorInstance) :=
    if strTruthy automator_id then some (get_automator_by_id cfg (automator_id.getD ""))
    else match cfg.automators with
      | [a] => some (some a)
      | _ => none
  match sel with
  | none => ([("Automator Error", "No Automator specified")], none)
  | some none => ([("Automator Error", "Automator " ++ automator_id.getD "" ++ " not found")], none)
  | some (some automator_config) =>
    if automator_config.enabled = false then
      ([("Automator Warning", automator_config.name ++ " is disabled")], none)
    else
      let url := pyStrip automator_config.url
      if url.data.isEmpty then
        ([("Automator Error", automator_config.name ++ " URL not configured")], none)
      else
        let url := if !pyStartsWith url "http://" && !pyStartsWith url "https://"
          then "http://" ++ url else url
        let url := rstripSlash url
        let endpoint :=
          if item_type == "button" then url ++ "/api/trigger/button/" ++ macro_id
          else if item_type == "shortcut" then url ++ "/api/trigger/shortcut/" ++ macro_id
          else url ++ "/api/macro/" ++ macro_id
        let evs := [("HTTP Trigger",
          "[" ++ automator_config.name ++ "] Calling " ++ item_type ++ ": " ++ macro_name)]
        let evs := evs ++ (if responseOk then
            [("HTTP Success",
              "[" ++ automator_config.name ++ "] Triggered " ++ item_type ++ ": " ++ macro_name)]
          else
            [("HTTP Error",
              "[" ++ automator_config.name ++ "] Failed to trigger " ++ macro_name)])
        (evs, some endpoint)

/-- `_get_cached_items` (core.py 812-819): the automator's cached lists,
flattened; `get_automator_cache` may create the default entry. -/
def _get_cached_items (bank : Bank) (automator_id : String) : Bank × List Item :=
  let (bank1, cache) := get_automator_cache bank automator_id
  (bank1, cache.macros ++ cache.buttons ++ cache.shortcuts)

/-- The outcomes of the three remote list fetches in `fetch_automator_macros`:
`none` models the request raising `RequestException`, `some l` the parsed
JSON body. -/
structure FetchResults where
  macros : Option (List Item) := none
  buttons : Option (List Item) := none
  shortcuts : Option (List Item) := none
deriving DecidableEq, Repr

/-- The shortcut post-processing (core.py 774-787): set `type` to
"shortcut" and build the display title Ctrl/Alt/Shift then key,
joined with " + ". -/
def decorate_shortcut (s : Item) : Item :=
  let key_parts : List String :=
    (if s.control then ["Ctrl"] else []) ++
    (if s.alt then ["Alt"] else []) ++
    (if s.shift then ["Shift"] else []) ++
    [s.key.getD "Unknown"]
  { s with itype := some "shortcut", title := pyJoin " + " key_parts }

/-- `fetch_automator_macros` (core.py 690-809): resolve the instance; on the
no-refresh or no-URL path return the cached items; on a forced refresh take
the three fetch outcomes from `fr` (a failed fetch leaves its local list
`[]`), and if at least one succeeded merge all three lists into the cache
and return the cached items; if all failed return the cached items when
`use_cache_on_failure`, else `[]`. -/
def fetch_automator_macros (cfg : Config) (bank : Bank) (automator_id : Option String)
    (force_refresh use_cache_on_failure : Bool) (fr : FetchResults) (now : String) :
    Bank × List Item :=
  let sel : Option (Option AutomatorInstance) :=
    if strTruthy automator_id then some (get_automator_by_id cfg (automator_id.getD ""))
    else match cfg.automators with
      | [a] => some (some a)
      | _ => none
  match sel with
  | none => (bank, [])
  | some none => (bank, [])
  | some (some automator_config) =>
    if force_refresh = false then _get_cached_items bank automator_config.id
    else
      let url := pyStrip automator_config.url
      if url.data.isEmpty then _get_cached_items bank automator_config.id
      else
        let macros := fr.macros.getD []
        let buttons := fr.buttons.getD []
        let shortcuts := (fr.shortcuts.getD []).map decorate_shortcut
        let fetch_success := fr.macros.isSome || fr.buttons.isSome || fr.shortcuts.isSome
        if fetch_success then
          let bank1 := merge_automator_data bank automator_config.id
            { macros := some macros, buttons := some buttons, shortcuts := some shortcuts } now
          _get_cached_items bank1 automator_config.id
        else if use_cache_on_failure then
          _get_cached_items bank automator_config.id
        else (bank, [])

/-- The trigger-matching step of `process_tcp_command` (core.py 422-426):
first configured command whose trigger matches case-insensitively. -/
def find_tcp_command (cfg : Config) (command : String) : Option TCPCommand :=
  cfg.tcp_commands.find? (fun c => pyUpper c.tcp_trigger == pyUpper command)

/-- The item-type determination of `process_tcp_command` (core.py 453-464):
the mapping's `item_type` (or legacy `automator_macro_type`) when truthy,
else the type recorded in the automator's cached catalog for the mapped id,
else "macro". -/
def determine_item_type (cfg : Config) (bank : Bank) (mapping : CommandMapping)
    (automator_id : String) : String :=
  let item_type := pyOrStr mapping.item_type mapping.automator_macro_type
  if strTruthy item_type then item_type.getD ""
  else
    let macros := (fetch_automator_macros cfg bank (some automator_id) false true {} "").2
    let item_type :=
      match macros.find? (fun it => it.id == some mapping.automator_macro_id) with
      | some it => some (it.itype.getD "macro")
      | none => item_type
    if strTruthy item_type then item_type.getD "" else "macro"

/-- `process_tcp_command(command, port)` (core.py 414-466): match the trigger,
find the mapping, check its automator reference, determine the item type and
dispatch.  Returns the logged events and the endpoint of the outbound GET
(`none` when resolution fails before dispatch). -/
def process_tcp_command (cfg : Config) (bank : Bank) (responseOk : Bool)
    (command : String) (port : Nat) : List Event × Option String :=
  let ev0 : List Event := [("TCP Command", "Received " ++ command ++ " on port " ++ toString port)]
  match find_tcp_command cfg command with
  | none => (ev0 ++ [("TCP Warning", "No definition for command " ++ command)], none)
  | some tcp_cmd =>
    match cfg.command_mappings.find? (fun m => m.tcp_command_id == tcp_cmd.id) with
    | none => (ev0 ++ [("TCP Warning", "No mapping for " ++ tcp_cmd.name)], none)
    | some mapping =>
      if !strTruthy mapping.automator_id then
        (ev0 ++ [("Mapping Error", "No Automator specified for " ++ tcp_cmd.name)], none)
      else
        let automator_id := mapping.automator_id.getD ""
        let evM : List Event :=
          [("Mapping Found", tcp_cmd.name ++ " -> " ++ mapping.automator_macro_name)]
        let item_type := determine_item_type cfg bank mapping automator_id
        let r := trigger_automator_macro cfg responseOk mapping.automator_macro_id
          mapping.automator_macro_name item_type (some automator_id)
        (ev0 ++ evM ++ r.1, r.2)

/-- The observable actions of the listener manager: server stop/start and
the warnings/errors it logs instead. -/
inductive TcpAction where
  | started (port : Nat)
  | startWarning (port : Nat)
  | startError (port : Nat)
  | stopped (port : Nat)
  | stopWarning (port : Nat)
deriving DecidableEq, Repr

/-- `start_tcp_server(port)` (core.py 544-569) on the running-port set
(the keys of `tcp_servers`, in insertion order): warn when already running,
else bind — `bindOk` is the oracle for `asyncio.start_server` not raising —
and register the port only on success. -/
def start_tcp_server (bindOk : Nat → Bool) (servers : List Nat) (port : Nat) :
    List Nat × List TcpAction :=
  if port ∈ servers then (servers, [TcpAction.startWarning port])
  else if bindOk port then (servers ++ [port], [TcpAction.started port])
  else (servers, [TcpAction.startError port])

/-- `stop_tcp_server(port)` (core.py 572-592): warn when not running, else
close and deregister the port. -/
def stop_tcp_server (servers : List Nat) (port : Nat) :
    List Nat × List TcpAction :=
  if port ∈ servers then
    (servers.filter (fun p => p ≠ port), [TcpAction.stopped port])
  else (servers, [TcpAction.stopWarning port])

/-- `restart_tcp_servers` (core.py 595-607): stop every running server
(iterating over the snapshot of `tcp_servers.keys()`), then start a server
for each enabled configured listener.  Returns the final running-port set
and the full trace of actions. -/
def restart_tcp_servers (bindOk : Nat → Bool) (servers : List Nat) (cfg : Config) :
    List Nat × List TcpAction :=
  let stopped := servers.foldl
    (fun acc p =>
      let r := stop_tcp_server acc.1 p
      (r.1, acc.2 ++ r.2))
    (servers, ([] : List TcpAction))
  cfg.tcp_listeners.foldl
    (fun acc l =>
      if l.enabled then
        let r := start_tcp_server bindOk acc.1 l.port
        (r.1, acc.2 ++ r.2)
      else acc)
    stopped

/-- The captured-trigger record `tcp_capture_result` (core.py 394-398). -/
structure CapturedCommand where
  command : String
  port : Nat
  source : String
deriving DecidableEq, Repr

/-- The capture slot: the pair of globals `tcp_capture_active` and
`tcp_capture_result`. -/
structure CaptureState where
  active : Bool := false
  result : Option CapturedCommand := none
deriving DecidableEq, Repr

/-- What `get_tcp_capture_status` reports. -/
inductive CaptureStatus where
  | captured (data : CapturedCommand)
  | listening
  | idle
deriving DecidableEq, Repr

/-- `start_tcp_capture` (core.py 3234-3241): arm the slot and clear any
stale result. -/
def start_tcp_capture (_s : CaptureState) : CaptureState :=
  { active := true, result := none }

/-- `cancel_tcp_capture` (core.py 3258-3265): disarm and clear. -/
def cancel_tcp_capture (_s : CaptureState) : CaptureState :=
  { active := false, result := none }

/-- `get_tcp_capture_status` (core.py 3244-3255): a present result is
returned and cleared (read-once); otherwise report listening or idle. -/
def get_tcp_capture_status (s : CaptureState) : CaptureStatus × CaptureState :=
  match s.result with
  | some r => (CaptureStatus.captured r, { s with result := none })
  | none => if s.active then (CaptureStatus.listening, s) else (CaptureStatus.idle, s)

/-- The capture block of `handle_tcp_client` (core.py 392-400): while the
slot is armed, record the line and disarm after this first command. -/
def capture_observe (s : CaptureState) (command : String) (port : Nat)
    (source : String) : CaptureState :=
  if s.active then { active := false, result := some ⟨command, port, source⟩ }
  else s

/-- One decoded line in `handle_tcp_client`'s read loop (core.py 383-403):
the capture block runs, then the command is always processed normally. -/
def handle_tcp_line (cfg : Config) (bank : Bank) (responseOk : Bool)
    (s : CaptureState) (command : String) (port : Nat) (source : String) :
    CaptureState × (List Event × Option String) :=
  (capture_observe s command port source,
   process_tcp_command cfg bank responseOk command port)

/-! ### Association-list (CPython dict) lemmas -/

theorem mem_dictInsert {d : List (Option String × Item)} {x kv : Option String × Item}
    (h : kv ∈ dictInsert d x) : kv ∈ d ∨ kv = x := by
  unfold dictInsert at h
  split at h
  · rcases List.mem_map.1 h with ⟨p, hp, hpe⟩
    by_cases hk : p.1 = x.1
    · right; rw [if_pos hk] at hpe; exact hpe.symm
    · left; rw [if_neg hk] at hpe; exact hpe ▸ hp
  · rcases List.mem_append.1 h with h | h
    · exact Or.inl h
    · exact Or.inr (List.mem_singleton.1 h)

theorem dictInsert_keys_nodup {d : List (Option String × Item)}
    (x : Option String × Item) (h : (d.map Prod.fst).Nodup) :
    ((dictInsert d x).map Prod.fst).Nodup := by
  unfold dictInsert
  split
  · have : (d.map fun p => if p.1 = x.1 then x else p).map Prod.fst = d.map Prod.fst := by
      rw [List.map_map]
      apply List.map_congr_left
      intro p _
      by_cases hk : p.1 = x.1
      · simp [hk]
      · simp [hk]
    rw [this]; exact h
  · rename_i hnone
    rw [List.map_append]
    apply List.Nodup.append h (by simp)
    intro k hk hk1
    simp only [List.map_cons, List.map_nil, List.mem_singleton] at hk1
    rcases List.mem_map.1 hk with ⟨p, hp, hpe⟩
    exact hnone (List.any_eq_true.2 ⟨p, hp, by simp [hpe, hk1]⟩)

theorem dictInsert_key_self (d : List (Option String × Item))
    (x : Option String × Item) : ∃ v, (x.1, v) ∈ dictInsert d x := by
  unfold dictInsert
  split
  · rename_i hany
    rcases List.any_eq_true.1 hany with ⟨p, hp, hpk⟩
    refine ⟨x.2, List.mem_map.2 ⟨p, hp, ?_⟩⟩
    rw [if_pos (by exact of_decide_eq_true hpk)]
  · exact ⟨x.2, List.mem_append.2 (Or.inr (by simp))⟩

theorem dictInsert_key_mono {d : List (Option String × Item)} {k : Option String}
    (x : Option String × Item) (h : ∃ v, (k, v) ∈ d) :
    ∃ v, (k, v) ∈ dictInsert d x := by
  rcases h with ⟨v, hv⟩
  unfold dictInsert
  split
  · by_cases hk : k = x.1
    · exact ⟨x.2, List.mem_map.2 ⟨(k, v), hv, by simp [hk]⟩⟩
    · exact ⟨v, List.mem_map.2 ⟨(k, v), hv, by simp [hk]⟩⟩
  · exact ⟨v, List.mem_append.2 (Or.inl hv)⟩

/-- The fold underlying `itemsToDict`, over an arbitrary accumulator. -/
theorem itemsToDict_fold_mem (items : List Item)
    (d : List (Option String × Item)) (S : List Item)
    (hd : ∀ kv ∈ d, kv.1 = kv.2.id ∧ kv.2 ∈ S)
    (hin : ∀ it ∈ items, it ∈ S) :
    ∀ kv ∈ items.foldl (fun d it => dictInsert d (it.id, it)) d,
      kv.1 = kv.2.id ∧ kv.2 ∈ S := by
  induction items generalizing d with
  | nil => exact hd
  | cons it rest ih =>
    intro kv hkv
    refine ih (dictInsert d (it.id, it)) ?_ (fun x hx => hin x (List.mem_cons_of_mem _ hx)) kv hkv
    intro p hp
    rcases mem_dictInsert hp with hpd | hpe
    · exact hd p hpd
    · subst hpe; exact ⟨rfl, hin it (List.mem_cons_self _ _)⟩

theorem itemsToDict_mem (items : List Item) :
    ∀ kv ∈ itemsToDict items, kv.1 = kv.2.id ∧ kv.2 ∈ items :=
  itemsToDict_fold_mem items [] items (by simp) (fun _ h => h)

theorem itemsToDict_keys_nodup (items : List Item) :
    ((itemsToDict items).map Prod.fst).Nodup := by
  have aux : ∀ (l : List Item) (d : List (Option String × Item)),
      (d.map Prod.fst).Nodup →
      ((l.foldl (fun d it => dictInsert d (it.id, it)) d).map Prod.fst).Nodup := by
    intro l
    induction l with
    | nil => intro d hd; exact hd
    | cons it rest ih =>
      intro d hd
      exact ih (dictInsert d (it.id, it)) (dictInsert_keys_nodup _ hd)
  exact aux items [] (by simp)

theorem itemsToDict_key_mem (items : List Item) (k : Option String) :
    (∃ v, (k, v) ∈ itemsToDict items) ↔ ∃ it ∈ items, it.id = k := by
  constructor
  · rintro ⟨v, hv⟩
    have h := itemsToDict_mem items (k, v) hv
    exact ⟨v, h.2, h.1.symm⟩
  · rintro ⟨it, hit, hk⟩
    have aux : ∀ (l : List Item) (d : List (Option String × Item)),
        ((∃ v, (k, v) ∈ d) ∨ ∃ it ∈ l, it.id = k) →
        ∃ v, (k, v) ∈ l.foldl (fun d it => dictInsert d (it.id, it)) d := by
      intro l
      induction l with
      | nil =>
        intro d h
        rcases h with h | ⟨it, hit, _⟩
        · exact h
        · exact absurd hit (List.not_mem_nil it)
      | cons q rest ih =>
        intro d h
        apply ih (dictInsert d (q.id, q))
        rcases h with h | ⟨p, hp, hpk⟩
        · exact Or.inl (dictInsert_key_mono _ h)
        · rcases List.mem_cons.1 hp with rfl | hp
          · exact Or.inl (hpk ▸ dictInsert_key_self d (p.id, p))
          · exact Or.inr ⟨p, hp, hpk⟩
    exact aux items [] (Or.inr ⟨it, hit, hk⟩)

theorem foldl_dictInsert_of_nodup :
    ∀ (l d : List (Option String × Item)),
      (((d ++ l).map Prod.fst).Nodup) → l.foldl dictInsert d = d ++ l := by
  intro l
  induction l with
  | nil => intro d _; simp
  | cons x rest ih =>
    intro d hd
    have hx : x.1 ∉ d.map Prod.fst := by
      intro hmem
      have := (List.nodup_append.1 (by simpa using hd)).2.2
      exact this hmem (by simp)
    have hins : dictInsert d x = d ++ [x] := by
      unfold dictInsert
      rw [if_neg]
      intro hany
      rcases List.any_eq_true.1 hany with ⟨p, hp, hpk⟩
      exact hx (List.mem_map.2 ⟨p, hp, of_decide_eq_true hpk⟩)
    rw [List.foldl_cons, hins, ih (d ++ [x]) (by simpa using hd)]
    simp

theorem mergeItems_eq (old new : List Item) :
    mergeItems old new = (itemsToDict new).map Prod.snd := by
  unfold mergeItems
  simp only [ite_self]
  rw [foldl_dictInsert_of_nodup (itemsToDict new) []
    (by simpa using itemsToDict_keys_nodup new)]
  simp

/-- C2 — Identity-preserving merge by id: for any cached list and any new
fetch list, the per-type merge yields a list with no duplicate ids, every
result item comes from the new fetch (so an item with a cached id is the
new fetch's replacement), an id appears in the result exactly when it
appears in the new fetch (old-only ids are dropped, new-only ids added);
and the claim's two concrete examples: `[{id:1,name:"A"}]` refreshed with
`[{id:1,name:"A-renamed"},{id:2,name:"B"}]` keeps exactly ids 1 (renamed)
and 2, and `[{id:1},{id:2}]` refreshed with `[{id:1}]` keeps id 1 only. -/
theorem C2_merge_by_id (old new : List Item) :
    ((mergeItems old new).map Item.id).Nodup ∧
    (∀ it ∈ mergeItems old new, it ∈ new) ∧
    (∀ i : Option String,
      (∃ it ∈ mergeItems old new, it.id = i) ↔ ∃ it ∈ new, it.id = i) ∧
    mergeItems [{ id := some "1", name := "A" }]
        [{ id := some "1", name := "A-renamed" }, { id := some "2", name := "B" }]
      = [{ id := some "1", name := "A-renamed" }, { id := some "2", name := "B" }] ∧
    mergeItems [{ id := some "1" }, { id := some "2" }] [{ id := some "1" }]
      = [{ id := some "1" }] := by
  refine ⟨?_, ?_, ?_, by decide, by decide⟩
  · rw [mergeItems_eq]
    have : ((itemsToDict new).map Prod.snd).map Item.id = (itemsToDict new).map Prod.fst := by
      rw [List.map_map]
      apply List.map_congr_left
      intro kv hkv
      exact ((itemsToDict_mem new) kv hkv).1.symm
    rw [this]
    exact itemsToDict_keys_nodup new
  · intro it hit
    rw [mergeItems_eq] at hit
    rcases List.mem_map.1 hit with ⟨kv, hkv, rfl⟩
    exact ((itemsToDict_mem new) kv hkv).2
  · intro i
    rw [mergeItems_eq]
    constructor
    · rintro ⟨it, hit, hid⟩
      rcases List.mem_map.1 hit with ⟨kv, hkv, rfl⟩
      exact ⟨kv.2, ((itemsToDict_mem new) kv hkv).2, hid⟩
    · rintro ⟨it, hit, hid⟩
      rcases (itemsToDict_key_mem new i).2 ⟨it, hit, hid⟩ with ⟨v, hv⟩
      refine ⟨v, List.mem_map.2 ⟨(i, v), hv, rfl⟩, ?_⟩
      exact ((itemsToDict_mem new) (i, v) hv).1.symm

/-- Witness for C2 at concrete lists: id 2 survives the refresh of
`[{id:1},{id:2}]` with `[{id:2}]`. -/
theorem C2_merge_by_id_witness :
    ∃ it ∈ mergeItems [{ id := some "1" }, { id := some "2" }] [({ id := some "2" } : Item)],
      Item.id it = some "2" :=
  ((C2_merge_by_id [{ id := some "1" }, { id := some "2" }] [{ id := some "2" }]).2.2.1
    (some "2")).mpr ⟨{ id := some "2" }, by decide, by decide⟩

theorem get_automator_cache_snd (bank : Bank) (aid : String) :
    (get_automator_cache bank aid).2 = (bank aid).getD emptyCache := by
  unfold get_automator_cache
  cases bank aid <;> simp

/-- What one `merge_automator_data` call does to the whole cache dict:
the target entry becomes the field-wise merge (keys absent from `new_data`
keep the old list, `last_updated` is stamped), every other entry is
untouched. -/
theorem merge_automator_data_spec (bank : Bank) (aid now : String) (nd : NewData) :
    merge_automator_data bank aid nd now aid = some {
      macros := match nd.macros with
        | some l => mergeItems ((bank aid).getD emptyCache).macros l
        | none => ((bank aid).getD emptyCache).macros,
      buttons := match nd.buttons with
        | some l => mergeItems ((bank aid).getD emptyCache).buttons l
        | none => ((bank aid).getD emptyCache).buttons,
      shortcuts := match nd.shortcuts with
        | some l => mergeItems ((bank aid).getD emptyCache).shortcuts l
        | none => ((bank aid).getD emptyCache).shortcuts,
      last_updated := some now } ∧
    (∀ other, other ≠ aid → merge_automator_data bank aid nd now other = bank other) := by
  obtain ⟨ndm, ndb, nds⟩ := nd
  constructor
  · cases ndm <;> cases ndb <;> cases nds <;>
      simp [merge_automator_data, get_automator_cache_snd]
  · intro other hne
    cases ndm <;> cases ndb <;> cases nds <;>
      simp [merge_automator_data, hne]

/-- C10 — Merge frame property: a `merge_automator_data` call for one
automator id leaves every other automator's cache entry unchanged, and
within the target entry replaces exactly the item-type lists whose key is
present in the supplied data (an absent key keeps the old list) while
always setting `last_updated`. -/
theorem C10_merge_frame (bank : Bank) (aid now : String) (nd : NewData) :
    (∀ other, other ≠ aid → merge_automator_data bank aid nd now other = bank other) ∧
    (∃ c', merge_automator_data bank aid nd now aid = some c' ∧
      (nd.macros = none → c'.macros = ((bank aid).getD emptyCache).macros) ∧
      (∀ l, nd.macros = some l → c'.macros = mergeItems ((bank aid).getD emptyCache).macros l) ∧
      (nd.buttons = none → c'.buttons = ((bank aid).getD emptyCache).buttons) ∧
      (∀ l, nd.buttons = some l → c'.buttons = mergeItems ((bank aid).getD emptyCache).buttons l) ∧
      (nd.shortcuts = none → c'.shortcuts = ((bank aid).getD emptyCache).shortcuts) ∧
      (∀ l, nd.shortcuts = some l → c'.shortcuts = mergeItems ((bank aid).getD emptyCache).shortcuts l) ∧
      c'.last_updated = some now) := by
  obtain ⟨hmain, hframe⟩ := merge_automator_data_spec bank aid now nd
  refine ⟨hframe, _, hmain, ?_, ?_, ?_, ?_, ?_, ?_, rfl⟩ <;>
    obtain ⟨ndm, ndb, nds⟩ := nd
  · intro h; rw [h]
  · intro l h; rw [h]
  · intro h; rw [h]
  · intro l h; rw [h]
  · intro h; rw [h]
  · intro l h; rw [h]

/-- Witness for C10: merging for id "a1" leaves the entry of "b2" alone. -/
theorem C10_merge_frame_witness :
    merge_automator_data (fun _ => none) "a1" { macros := some [] } "t" "b2" = none :=
  (C10_merge_frame (fun _ => none) "a1" "t" { macros := some [] }).1 "b2" (by decide)

theorem _get_cached_items_of_some {bank : Bank} {aid : String} {c : AutomatorCache}
    (h : bank aid = some c) :
    _get_cached_items bank aid = (bank, c.macros ++ c.buttons ++ c.shortcuts) := by
  simp [_get_cached_items, get_automator_cache, h]

/-- The forced-refresh branch of `fetch_automator_macros`, once the instance
is resolved and has a URL: merge when at least one sub-fetch succeeded, else
fall back to the cache or to the empty list. -/
theorem fetch_refresh_reduction (cfg : Config) (bank : Bank) (aid now : String)
    (acfg : AutomatorInstance) (fr : FetchResults) (uc : Bool)
    (htr : strTruthy (some aid) = true)
    (hfind : get_automator_by_id cfg aid = some acfg)
    (hurl : (pyStrip acfg.url).data.isEmpty = false) :
    fetch_automator_macros cfg bank (some aid) true uc fr now =
      if (fr.macros.isSome || fr.buttons.isSome || fr.shortcuts.isSome) = true then
        _get_cached_items (merge_automator_data bank acfg.id
          { macros := some (fr.macros.getD []), buttons := some (fr.buttons.getD []),
            shortcuts := some ((fr.shortcuts.getD []).map decorate_shortcut) } now) acfg.id
      else if uc = true then _get_cached_items bank acfg.id
      else (bank, []) := by
  simp [fetch_automator_macros, htr, hfind, hurl]

/-- C1 (amended) — Catalog refresh failure semantics: during a forced
refresh the three sub-fetches fail independently only in the sense that one
failure does not abort the others; if all three fail the cache is left
untouched and the prior persisted catalog is returned, or the empty list
when the caller disables the cache-on-failure fallback.  But when at least
one sub-fetch succeeds, all three item-type lists are merged, a failed
type contributing the empty list — so a failed type's cached items are
dropped, not kept. -/
theorem C1_refresh_failure_semantics (cfg : Config) (bank : Bank) (aid now : String)
    (acfg : AutomatorInstance) (fr : FetchResults)
    (htr : strTruthy (some aid) = true)
    (hfind : get_automator_by_id cfg aid = some acfg)
    (hurl : (pyStrip acfg.url).data.isEmpty = false) :
    ((fr.macros = none ∧ fr.buttons = none ∧ fr.shortcuts = none) →
      (∀ c, bank acfg.id = some c →
        fetch_automator_macros cfg bank (some aid) true true fr now
          = (bank, c.macros ++ c.buttons ++ c.shortcuts)) ∧
      fetch_automator_macros cfg bank (some aid) true false fr now = (bank, [])) ∧
    ((fr.macros.isSome || fr.buttons.isSome || fr.shortcuts.isSome) = true →
      ∀ uc, ∃ c',
        (fetch_automator_macros cfg bank (some aid) true uc fr now).1 acfg.id = some c' ∧
        c'.macros = mergeItems ((bank acfg.id).getD emptyCache).macros (fr.macros.getD []) ∧
        c'.buttons = mergeItems ((bank acfg.id).getD emptyCache).buttons (fr.buttons.getD []) ∧
        c'.shortcuts = mergeItems ((bank acfg.id).getD emptyCache).shortcuts
          ((fr.shortcuts.getD []).map decorate_shortcut) ∧
        c'.last_updated = some now ∧
        (∀ x, x ≠ acfg.id →
          (fetch_automator_macros cfg bank (some aid) true uc fr now).1 x = bank x)) := by
  constructor
  · rintro ⟨hm, hb, hs⟩
    have hfail : (fr.macros.isSome || fr.buttons.isSome || fr.shortcuts.isSome) = false := by
      rw [hm, hb, hs]; rfl
    constructor
    · intro c hc
      rw [fetch_refresh_reduction cfg bank aid now acfg fr true htr hfind hurl,
        if_neg (by rw [hfail]; exact Bool.false_ne_true), if_pos rfl,
        _get_cached_items_of_some hc]
    · rw [fetch_refresh_reduction cfg bank aid now acfg fr false htr hfind hurl,
        if_neg (by rw [hfail]; exact Bool.false_ne_true), if_neg (by exact Bool.false_ne_true)]
  · intro hs uc
    obtain ⟨hmain, hframe⟩ := merge_automator_data_spec bank acfg.id now
      { macros := some (fr.macros.getD []), buttons := some (fr.buttons.getD []),
        shortcuts := some ((fr.shortcuts.getD []).map decorate_shortcut) }
    rw [fetch_refresh_reduction cfg bank aid now acfg fr uc htr hfind hurl, if_pos hs,
      _get_cached_items_of_some hmain]
    exact ⟨_, hmain, rfl, rfl, rfl, rfl, hframe⟩

/-- Witness for C1 at a concrete all-fail refresh: the prior catalog of
"a1" (one cached macro) is returned and the bank is untouched. -/
theorem C1_refresh_failure_semantics_witness :
    fetch_automator_macros { automators := [{ id := "a1", name := "A1", url := "http://h", enabled := true }] }
      (fun x => if x = "a1" then some { macros := [{ id := some "m1" }] } else none)
      (some "a1") true true {} "t"
    = ((fun x => if x = "a1" then some { macros := [{ id := some "m1" }] } else none : Bank),
       [({ id := some "m1" } : Item)]) :=
  ((C1_refresh_failure_semantics
      { automators := [{ id := "a1", name := "A1", url := "http://h", enabled := true }] }
      (fun x => if x = "a1" then some { macros := [{ id := some "m1" }] } else none)
      "a1" "t" { id := "a1", name := "A1", url := "http://h", enabled := true } {}
      (by decide) (by decide) (by decide)).1
    ⟨rfl, rfl, rfl⟩).1 { macros := [{ id := some "m1" }] } (by decide)

/-- The cached macros list of "a1" before the refresh of `C1_counterexample`. -/
def cexCache : AutomatorCache := { macros := [{ id := some "m1", name := "Old" }] }

/-- The cache dict before the refresh of `C1_counterexample`. -/
def cexBank : Bank := fun x => if x = "a1" then some cexCache else none

/-- The configuration of `C1_counterexample`: one automator "a1". -/
def cexConfig : Config :=
  { automators := [{ id := "a1", name := "A1", url := "http://h", enabled := true }] }

/-- Fetch outcomes of `C1_counterexample`: the macros and shortcuts fetches
fail, the buttons fetch succeeds. -/
def cexFetch : FetchResults := { buttons := some [{ id := some "b1" }] }

/-- C1 counterexample — the claim "for each item type, if that type's fetch
fails its cached list is kept" is false: in a forced refresh where the
macros fetch fails but the buttons fetch succeeds, the cached macros list
`[{id:"m1"}]` is wiped to `[]` instead of being kept. -/
theorem C1_counterexample :
    cexFetch.macros = none ∧
    (cexBank "a1").map AutomatorCache.macros = some [{ id := some "m1", name := "Old" }] ∧
    ((fetch_automator_macros cexConfig cexBank (some "a1") true true cexFetch "t").1 "a1").map
        AutomatorCache.macros = some [] ∧
    ¬ ((fetch_automator_macros cexConfig cexBank (some "a1") true true cexFetch "t").1 "a1").map
        AutomatorCache.macros = (cexBank "a1").map AutomatorCache.macros := by
  refine ⟨rfl, rfl, by decide, by decide⟩

/-! ### Listener-manager lemmas -/

theorem stop_tcp_server_state (s : List Nat) (p : Nat) :
    (stop_tcp_server s p).1 = s.filter (fun x => x ≠ p) := by
  unfold stop_tcp_server
  by_cases hp : p ∈ s
  · rw [if_pos hp]
  · rw [if_neg hp]
    have : s.filter (fun x => x ≠ p) = s :=
      List.filter_eq_self.2 (fun x hx => by
        simp only [ne_eq, decide_eq_true_eq]
        rintro rfl; exact hp hx)
    rw [this]

theorem stop_fold_state (l : List Nat) :
    ∀ (s : List Nat) (tr : List TcpAction),
      (l.foldl (fun acc p =>
          let r := stop_tcp_server acc.1 p
          (r.1, acc.2 ++ r.2)) (s, tr)).1
        = l.foldl (fun s p => s.filter (fun x => x ≠ p)) s := by
  induction l with
  | nil => intro s tr; rfl
  | cons q rest ih =>
    intro s tr
    simp only [List.foldl_cons]
    rw [ih]
    rw [stop_tcp_server_state]

theorem filter_fold_nil (l : List Nat) :
    ∀ (s : List Nat), (∀ x ∈ s, x ∈ l) →
      l.foldl (fun s p => s.filter (fun x => x ≠ p)) s = [] := by
  induction l with
  | nil =>
    intro s hs
    exact List.eq_nil_iff_forall_not_mem.2 (fun x hx => List.not_mem_nil x (hs x hx))
  | cons q rest ih =>
    intro s hs
    simp only [List.foldl_cons]
    apply ih
    intro x hx
    have hxs := List.mem_filter.1 hx
    have hxq : x ≠ q := by simpa using hxs.2
    rcases List.mem_cons.1 (hs x hxs.1) with rfl | h
    · exact absurd rfl hxq
    · exact h

theorem start_fold_state (bindOk : Nat → Bool) (L : List TCPListener) :
    ∀ (s0 : List Nat) (tr0 : List TcpAction),
      (L.foldl (fun acc l =>
          if l.enabled then
            let r := start_tcp_server bindOk acc.1 l.port
            (r.1, acc.2 ++ r.2)
          else acc) (s0, tr0)).1
        = L.foldl (fun s l =>
            if l.enabled then (start_tcp_server bindOk s l.port).1 else s) s0 := by
  induction L with
  | nil => intro s0 tr0; rfl
  | cons l rest ih =>
    intro s0 tr0
    simp only [List.foldl_cons]
    by_cases he : l.enabled
    · rw [if_pos he, if_pos he]
      exact ih _ _
    · rw [if_neg he, if_neg he]
      exact ih _ _

theorem restart_tcp_servers_state (bindOk : Nat → Bool) (servers : List Nat)
    (cfg : Config) :
    (restart_tcp_servers bindOk servers cfg).1
      = cfg.tcp_listeners.foldl (fun s l =>
          if l.enabled then (start_tcp_server bindOk s l.port).1 else s) [] := by
  unfold restart_tcp_servers
  rw [start_fold_state]
  congr 1
  rw [stop_fold_state]
  exact filter_fold_nil servers servers (fun x hx => hx)

theorem start_tcp_server_state_mem (bindOk : Nat → Bool) (s : List Nat) (q p : Nat) :
    p ∈ (start_tcp_server bindOk s q).1 ↔ p ∈ s ∨ (p = q ∧ bindOk q = true) := by
  unfold start_tcp_server
  by_cases hq : q ∈ s
  · rw [if_pos hq]
    constructor
    · exact Or.inl
    · rintro (h | ⟨rfl, _⟩)
      · exact h
      · exact hq
  · rw [if_neg hq]
    by_cases hb : bindOk q = true
    · rw [if_pos hb]
      simp only [List.mem_append, List.mem_singleton]
      constructor
      · rintro (h | rfl)
        · exact Or.inl h
        · exact Or.inr ⟨rfl, hb⟩
      · rintro (h | ⟨rfl, _⟩)
        · exact Or.inl h
        · exact Or.inr rfl
    · rw [if_neg hb]
      constructor
      · exact Or.inl
      · rintro (h | ⟨rfl, hbk⟩)
        · exact h
        · exact absurd hbk hb

theorem start_fold_state_mem (bindOk : Nat → Bool) (L : List TCPListener) :
    ∀ (s0 : List Nat) (p : Nat),
      p ∈ L.foldl (fun s l =>
          if l.enabled then (start_tcp_server bindOk s l.port).1 else s) s0
        ↔ p ∈ s0 ∨ ∃ l ∈ L, l.enabled = true ∧ l.port = p ∧ bindOk p = true := by
  induction L with
  | nil => intro s0 p; simp
  | cons l rest ih =>
    intro s0 p
    simp only [List.foldl_cons]
    rw [ih]
    by_cases he : l.enabled
    · rw [if_pos he, start_tcp_server_state_mem]
      constructor
      · rintro ((h | ⟨rfl, hb⟩) | ⟨l', hl', h1, h2, h3⟩)
        · exact Or.inl h
        · exact Or.inr ⟨l, List.mem_cons_self _ _, he, rfl, hb⟩
        · exact Or.inr ⟨l', List.mem_cons_of_mem _ hl', h1, h2, h3⟩
      · rintro (h | ⟨l', hl', h1, h2, h3⟩)
        · exact Or.inl (Or.inl h)
        · rcases List.mem_cons.1 hl' with rfl | hl'
          · exact Or.inl (Or.inr ⟨h2.symm, h2 ▸ h3⟩)
          · exact Or.inr ⟨l', hl', h1, h2, h3⟩
    · rw [if_neg he]
      constructor
      · rintro (h | ⟨l', hl', h1, h2, h3⟩)
        · exact Or.inl h
        · exact Or.inr ⟨l', List.mem_cons_of_mem _ hl', h1, h2, h3⟩
      · rintro (h | ⟨l', hl', h1, h2, h3⟩)
        · exact Or.inl h
        · rcases List.mem_cons.1 hl' with rfl | hl'
          · exact absurd h1 (by simpa using he)
          · exact Or.inr ⟨l', hl', h1, h2, h3⟩

theorem restart_tcp_servers_state_mem (bindOk : Nat → Bool) (servers : List Nat)
    (cfg : Config) (p : Nat) :
    p ∈ (restart_tcp_servers bindOk servers cfg).1
      ↔ ∃ l ∈ cfg.tcp_listeners, l.enabled = true ∧ l.port = p ∧ bindOk p = true := by
  rw [restart_tcp_servers_state, start_fold_state_mem]
  simp

theorem stop_fold_trace_mono (l : List Nat) :
    ∀ (s : List Nat) (tr : List TcpAction) (a : TcpAction), a ∈ tr →
      a ∈ (l.foldl (fun acc p =>
          let r := stop_tcp_server acc.1 p
          (r.1, acc.2 ++ r.2)) (s, tr)).2 := by
  induction l with
  | nil => intro s tr a ha; exact ha
  | cons q rest ih =>
    intro s tr a ha
    simp only [List.foldl_cons]
    exact ih _ _ a (List.mem_append_left _ ha)

theorem stop_fold_trace_stopped (l : List Nat) :
    ∀ (s : List Nat) (tr : List TcpAction) (p : Nat), p ∈ l → p ∈ s →
      TcpAction.stopped p ∈ (l.foldl (fun acc p =>
          let r := stop_tcp_server acc.1 p
          (r.1, acc.2 ++ r.2)) (s, tr)).2 := by
  induction l with
  | nil => intro s tr p hp _; exact absurd hp (List.not_mem_nil p)
  | cons q rest ih =>
    intro s tr p hp hps
    simp only [List.foldl_cons]
    by_cases hpq : p = q
    · subst hpq
      apply stop_fold_trace_mono
      apply List.mem_append_right
      unfold stop_tcp_server
      rw [if_pos hps]
      simp
    · rcases List.mem_cons.1 hp with rfl | hp'
      · exact absurd rfl hpq
      · apply ih _ _ p hp'
        rw [stop_tcp_server_state, List.mem_filter]
        exact ⟨hps, by simpa using hpq⟩

theorem start_fold_trace_mono (bindOk : Nat → Bool) (L : List TCPListener) :
    ∀ (acc : List Nat × List TcpAction) (a : TcpAction), a ∈ acc.2 →
      a ∈ (L.foldl (fun acc l =>
          if l.enabled then
            let r := start_tcp_server bindOk acc.1 l.port
            (r.1, acc.2 ++ r.2)
          else acc) acc).2 := by
  induction L with
  | nil => intro acc a ha; exact ha
  | cons l rest ih =>
    intro acc a ha
    simp only [List.foldl_cons]
    by_cases he : l.enabled
    · rw [if_pos he]
      exact ih _ a (List.mem_append_left _ ha)
    · rw [if_neg he]
      exact ih _ a ha

theorem restart_stops_running (bindOk : Nat → Bool) (servers : List Nat)
    (cfg : Config) (p : Nat) (hp : p ∈ servers) :
    TcpAction.stopped p ∈ (restart_tcp_servers bindOk servers cfg).2 := by
  unfold restart_tcp_servers
  exact start_fold_trace_mono bindOk cfg.tcp_listeners _ _
    (stop_fold_trace_stopped servers servers [] p hp hp)

/-- C3 (amended) — Listener reconciliation is idempotent only in its
resulting state: the final running set does not depend on the prior running
set and a second invocation reproduces it; but reconciliation is not
incremental and not free of side effects when already converged — every
invocation first stops every running listener, even one whose entry is
unchanged and enabled, and then starts listeners for the enabled entries
afresh. -/
theorem C3_reconciliation (bindOk : Nat → Bool) (servers : List Nat) (cfg : Config) :
    (restart_tcp_servers bindOk servers cfg).1 = (restart_tcp_servers bindOk [] cfg).1 ∧
    (restart_tcp_servers bindOk (restart_tcp_servers bindOk servers cfg).1 cfg).1
      = (restart_tcp_servers bindOk servers cfg).1 ∧
    (∀ p, p ∈ servers → TcpAction.stopped p ∈ (restart_tcp_servers bindOk servers cfg).2) := by
  refine ⟨?_, ?_, fun p hp => restart_stops_running bindOk servers cfg p hp⟩
  · rw [restart_tcp_servers_state, restart_tcp_servers_state]
  · rw [restart_tcp_servers_state, restart_tcp_servers_state]

/-- Witness for C3: reconciling `[9001]` against the converged configuration
still emits a stop action for port 9001. -/
theorem C3_reconciliation_witness :
    TcpAction.stopped 9001 ∈ (restart_tcp_servers (fun _ => true) [9001]
      { tcp_listeners := [{ port := 9001, enabled := true }] }).2 :=
  (C3_reconciliation (fun _ => true) [9001]
    { tcp_listeners := [{ port := 9001, enabled := true }] }).2.2 9001 (by decide)

/-- C3 counterexample — invoking reconciliation when the running set already
matches the desired set is not side-effect free: with port 9001 running and
the desired list exactly `[{port: 9001, enabled: true}]`, the listener is
stopped and restarted (a non-empty action trace), not left untouched. -/
theorem C3_counterexample :
    restart_tcp_servers (fun _ => true) [9001]
        { tcp_listeners := [{ port := 9001, enabled := true }] }
      = ([9001], [TcpAction.stopped 9001, TcpAction.started 9001]) ∧
    (restart_tcp_servers (fun _ => true) [9001]
        { tcp_listeners := [{ port := 9001, enabled := true }] }).2 ≠ [] :=
  ⟨by decide, by decide⟩

/-- C4 — Reconciliation postcondition: a port whose bind fails is never
registered as running; and when every enabled entry's bind succeeds, the
ports running after reconciliation are exactly the ports of enabled
entries. -/
theorem C4_reconcile_postcondition (bindOk : Nat → Bool) (servers : List Nat)
    (cfg : Config) :
    (∀ p, bindOk p = false → p ∉ (restart_tcp_servers bindOk servers cfg).1) ∧
    ((∀ l ∈ cfg.tcp_listeners, l.enabled = true → bindOk l.port = true) →
      ∀ p, p ∈ (restart_tcp_servers bindOk servers cfg).1
        ↔ ∃ l ∈ cfg.tcp_listeners, l.enabled = true ∧ l.port = p) := by
  constructor
  · intro p hb hmem
    rcases (restart_tcp_servers_state_mem bindOk servers cfg p).1 hmem with ⟨l, _, _, _, h3⟩
    rw [hb] at h3
    cases h3
  · intro hall p
    rw [restart_tcp_servers_state_mem]
    constructor
    · rintro ⟨l, hl, h1, h2, _⟩
      exact ⟨l, hl, h1, h2⟩
    · rintro ⟨l, hl, h1, h2⟩
      exact ⟨l, hl, h1, h2, h2 ▸ hall l hl h1⟩

/-- Witness for C4: with entries 9001 enabled and 9002 disabled and all
binds succeeding, port 9001 is running after reconciliation. -/
theorem C4_reconcile_postcondition_witness :
    9001 ∈ (restart_tcp_servers (fun _ => true) []
      { tcp_listeners := [{ port := 9001, enabled := true },
                          { port := 9002, enabled := false }] }).1 :=
  ((C4_reconcile_postcondition (fun _ => true) []
      { tcp_listeners := [{ port := 9001, enabled := true },
                          { port := 9002, enabled := false }] }).2
    (fun _ _ _ => rfl) 9001).mpr
    ⟨{ port := 9001, enabled := true }, by decide, rfl, rfl⟩

theorem find?_append_of_none {p : TCPCommand → Bool} :
    ∀ (pre rest : List TCPCommand), (∀ c ∈ pre, p c = false) →
      (pre ++ rest).find? p = rest.find? p := by
  intro pre
  induction pre with
  | nil => intro rest _; rfl
  | cons c pre' ih =>
    intro rest hpre
    rw [List.cons_append, List.find?_cons, hpre c (List.mem_cons_self _ _)]
    exact ih rest (fun x hx => hpre x (List.mem_cons_of_mem _ hx))

/-- C5 — Trigger resolution: matching depends only on the uppercased
trigger text (so it is case-insensitive and exact), the dispatched endpoint
is likewise unchanged under case changes of the incoming string, the first
configured command whose trigger matches wins (in list order, when
duplicates exist), and when no configured trigger matches the command only
the received and "no definition" events are logged and no dispatch
occurs. -/
theorem C5_trigger_resolution (cfg : Config) (bank : Bank) (ok : Bool) (port : Nat) :
    (∀ c1 c2 : String, pyUpper c1 = pyUpper c2 →
      find_tcp_command cfg c1 = find_tcp_command cfg c2) ∧
    (∀ c1 c2 : String, pyUpper c1 = pyUpper c2 →
      (process_tcp_command cfg bank ok c1 port).2
        = (process_tcp_command cfg bank ok c2 port).2) ∧
    (∀ (pre post : List TCPCommand) (cmd : TCPCommand) (command : String),
      cfg.tcp_commands = pre ++ cmd :: post →
      (∀ c ∈ pre, pyUpper c.tcp_trigger ≠ pyUpper command) →
      pyUpper cmd.tcp_trigger = pyUpper command →
      find_tcp_command cfg command = some cmd) ∧
    (∀ command : String,
      (∀ c ∈ cfg.tcp_commands, pyUpper c.tcp_trigger ≠ pyUpper command) →
      process_tcp_command cfg bank ok command port =
        ([("TCP Command", "Received " ++ command ++ " on port " ++ toString port),
          ("TCP Warning", "No definition for command " ++ command)], none)) := by
  have hci : ∀ c1 c2 : String, pyUpper c1 = pyUpper c2 →
      find_tcp_command cfg c1 = find_tcp_command cfg c2 := by
    intro c1 c2 h
    simp only [find_tcp_command, h]
  refine ⟨hci, ?_, ?_, ?_⟩
  · intro c1 c2 h
    have hf := hci c1 c2 h
    cases hfind : find_tcp_command cfg c2 with
    | none => simp [process_tcp_command, hf, hfind]
    | some cmd =>
      cases hmap : cfg.command_mappings.find? (fun m => m.tcp_command_id == cmd.id) with
      | none => simp [process_tcp_command, hf, hfind, hmap]
      | some mapping =>
        by_cases ht : strTruthy mapping.automator_id <;>
          simp [process_tcp_command, hf, hfind, hmap, ht]
  · intro pre post cmd command hcfg hpre hcmd
    unfold find_tcp_command
    rw [hcfg, find?_append_of_none pre (cmd :: post)
      (fun c hc => beq_eq_false_iff_ne.2 (fun he => hpre c hc he))]
    rw [List.find?_cons, beq_iff_eq.2 hcmd]
  · intro command hnone
    have hf : find_tcp_command cfg command = none := by
      unfold find_tcp_command
      rw [List.find?_eq_none]
      intro c hc hbeq
      exact hnone c hc (by simpa using hbeq)
    simp [process_tcp_command, hf]

/-- Witness for C5: incoming "test1" resolves to the command configured
with trigger "TEST1". -/
theorem C5_trigger_resolution_witness :
    find_tcp_command
        { tcp_commands := [{ id := "c1", name := "L", tcp_trigger := "TEST1" }] } "test1"
      = some { id := "c1", name := "L", tcp_trigger := "TEST1" } :=
  (C5_trigger_resolution
      { tcp_commands := [{ id := "c1", name := "L", tcp_trigger := "TEST1" }] }
      (fun _ => none) true 0).2.2.1 [] []
    { id := "c1", name := "L", tcp_trigger := "TEST1" } "test1" rfl
    (fun c hc => absurd hc (List.not_mem_nil c)) (by decide)

/-- C6 — Item-type inference: when the mapping carries a truthy item type
(the `item_type` key or the legacy `automator_macro_type` key) it is used;
otherwise the mapped id is looked up in the target automator's cached
catalog (the no-refresh read of `fetch_automator_macros`) and the first
matching item's recorded type is adopted; when the id is absent from the
catalog — or the recorded type itself is empty or missing — the type
defaults to "macro". -/
theorem C6_item_type_inference (cfg : Config) (bank : Bank)
    (mapping : CommandMapping) (aid : String) :
    (strTruthy (pyOrStr mapping.item_type mapping.automator_macro_type) = true →
      determine_item_type cfg bank mapping aid
        = (pyOrStr mapping.item_type mapping.automator_macro_type).getD "") ∧
    (strTruthy (pyOrStr mapping.item_type mapping.automator_macro_type) = false →
      (∀ it, (fetch_automator_macros cfg bank (some aid) false true {} "").2.find?
            (fun it => it.id == some mapping.automator_macro_id) = some it →
        determine_item_type cfg bank mapping aid
          = if (it.itype.getD "macro").data.isEmpty = true then "macro"
            else it.itype.getD "macro") ∧
      ((fetch_automator_macros cfg bank (some aid) false true {} "").2.find?
            (fun it => it.id == some mapping.automator_macro_id) = none →
        determine_item_type cfg bank mapping aid = "macro")) := by
  constructor
  · intro h
    unfold determine_item_type
    rw [if_pos h]
  · intro h
    constructor
    · intro it hit
      unfold determine_item_type
      rw [if_neg (by rw [h]; exact Bool.false_ne_true)]
      simp only []
      rw [hit]
      by_cases he : (it.itype.getD "macro").data.isEmpty = true
      · rw [if_pos he]
        rw [if_neg (by simp [strTruthy, he])]
      · rw [if_neg he]
        rw [if_pos (by simp [strTruthy]; simpa using he)]
        rfl
    · intro hnone
      unfold determine_item_type
      rw [if_neg (by rw [h]; exact Bool.false_ne_true)]
      simp only []
      rw [hnone]
      rw [if_neg (by rw [h]; exact Bool.false_ne_true)]

/-- The catalog item of `C6_item_type_inference_witness`: id "b1",
recorded type "button". -/
def w6Item : Item := { id := some "b1", itype := some "button" }

/-- Cache dict for the C6 witness: "a1" has one cached button. -/
def w6Bank : Bank := fun x => if x = "a1" then some { buttons := [w6Item] } else none

/-- Config for the C6 witness: a single automator "a1". -/
def w6Cfg : Config := { automators := [{ id := "a1" }] }

/-- Mapping for the C6 witness: no item type recorded, target id "b1". -/
def w6Mapping : CommandMapping :=
  { tcp_command_id := "c1", automator_id := some "a1", automator_macro_id := "b1" }

/-- Witness for C6: a mapping without an item type adopts the cached
catalog's recorded type "button" for its target id. -/
theorem C6_item_type_inference_witness :
    determine_item_type w6Cfg w6Bank w6Mapping "a1" = "button" :=
  (((C6_item_type_inference w6Cfg w6Bank w6Mapping "a1").2 (by decide)).1
    w6Item (by decide)).trans (by decide)

/-- C7 (amended) — Dispatch instance selection and rejection: when
`automator_id` is omitted the target is chosen only if exactly one
*configured* instance exists — zero or multiple configured instances
(regardless of their enabled flags) is an error, never a guess; and when
the resolved instance is disabled or has no configured URL the dispatch is
rejected without issuing any outbound HTTP call, logging a
configuration-problem event. -/
theorem C7_dispatch_selection (cfg : Config) (ok : Bool) (mid mname ity : String) :
    (cfg.automators.length ≠ 1 →
      trigger_automator_macro cfg ok mid mname ity none
        = ([("Automator Error", "No Automator specified")], none)) ∧
    (∀ a, cfg.automators = [a] → a.enabled = true →
      (pyStrip a.url).data.isEmpty = false →
      ( trigger_automator_macro cfg ok mid mname ity none).2.isSome = true) ∧
    (∀ a, cfg.automators = [a] → a.enabled = false →
      trigger_automator_macro cfg ok mid mname ity none
        = ([("Automator Warning", a.name ++ " is disabled")], none)) ∧
    (∀ aid a, strTruthy (some aid) = true → get_automator_by_id cfg aid = some a →
      a.enabled = false →
      trigger_automator_macro cfg ok mid mname ity (some aid)
        = ([("Automator Warning", a.name ++ " is disabled")], none)) ∧
    (∀ aid a, strTruthy (some aid) = true → get_automator_by_id cfg aid = some a →
      a.enabled = true → (pyStrip a.url).data.isEmpty = true →
      trigger_automator_macro cfg ok mid mname ity (some aid)
        = ([("Automator Error", a.name ++ " URL not configured")], none)) := by
  refine ⟨?_, ?_, ?_, ?_, ?_⟩
  · intro hlen
    match hcfg : cfg.automators with
    | [] => simp [ trigger_automator_macro, strTruthy, hcfg]
    | [a] => exact absurd (by rw [hcfg]; rfl) hlen
    | a :: b :: rest => simp [ trigger_automator_macro, strTruthy, hcfg]
  · intro a hcfg hen hurl
    simp [ trigger_automator_macro, strTruthy, hcfg, hen, hurl]
  · intro a hcfg hdis
    simp [ trigger_automator_macro, strTruthy, hcfg, hdis]
  · intro aid a htr hfind hdis
    simp [ trigger_automator_macro, htr, hfind, hdis]
  · intro aid a htr hfind hen hurl
    simp [ trigger_automator_macro, htr, hfind, hen, hurl]

/-- Witness for C7: with two configured automators, an id-less dispatch is
refused with "No Automator specified" and no HTTP call. -/
theorem C7_dispatch_selection_witness :
    trigger_automator_macro
        { automators := [{ id := "a1", enabled := true }, { id := "a2" }] }
        true "m5" "M5" "macro" none
      = ([("Automator Error", "No Automator specified")], none) :=
  (C7_dispatch_selection
    { automators := [{ id := "a1", enabled := true }, { id := "a2" }] }
    true "m5" "M5" "macro").1 (by decide)

/-- Configuration of `C7_counterexample`: two instances, exactly one of
them enabled (and fully configured). -/
def cex7Cfg : Config :=
  { automators := [{ id := "a1", name := "A1", url := "http://h", enabled := true },
                   { id := "a2", name := "A2" }] }

/-- C7 counterexample — the claim "when automator_id is omitted the target
is chosen only if exactly one enabled instance exists" is false: here
exactly one enabled instance exists, yet the code refuses the dispatch
("No Automator specified", no HTTP call) because it counts all configured
instances, enabled or not. -/
theorem C7_counterexample :
    (cex7Cfg.automators.filter (fun a => a.enabled)).length = 1 ∧
    trigger_automator_macro cex7Cfg true "m5" "M5" "macro" none
      = ([("Automator Error", "No Automator specified")], none) :=
  ⟨by decide, by decide⟩

/-- C8 — Dispatch endpoint construction: with the instance resolved,
enabled and owning a URL, exactly one GET is issued, to the URL normalized
by prefixing "http://" when no scheme is present and dropping trailing
slashes, followed by `/api/macro/{id}` for item type "macro" (and any
unknown type), `/api/trigger/button/{id}` for "button",
`/api/trigger/shortcut/{id}` for "shortcut". -/
theorem C8_endpoint_construction (cfg : Config) (ok : Bool)
    (mid mname ity aid : String) (a : AutomatorInstance)
    (htr : strTruthy (some aid) = true)
    (hfind : get_automator_by_id cfg aid = some a)
    (hen : a.enabled = true)
    (hurl : (pyStrip a.url).data.isEmpty = false) :
    ( trigger_automator_macro cfg ok mid mname ity (some aid)).2 =
      some (
        let url := pyStrip a.url
        let url := if !pyStartsWith url "http://" && !pyStartsWith url "https://"
          then "http://" ++ url else url
        let url := rstripSlash url
        if ity == "button" then url ++ "/api/trigger/button/" ++ mid
        else if ity == "shortcut" then url ++ "/api/trigger/shortcut/" ++ mid
        else url ++ "/api/macro/" ++ mid) := by
  simp [ trigger_automator_macro, htr, hfind, hen, hurl]

/-- Witness for C8, the spec's end-to-end example: instance URL
`http://127.0.0.1:7070`, macro id m5 — one GET to
`http://127.0.0.1:7070/api/macro/m5`. -/
theorem C8_endpoint_construction_witness :
    ( trigger_automator_macro
        { automators := [{ id := "a1", name := "A1", url := "http://127.0.0.1:7070", enabled := true }] }
        true "m5" "M5" "macro" (some "a1")).2
      = some "http://127.0.0.1:7070/api/macro/m5" :=
  (C8_endpoint_construction
    { automators := [{ id := "a1", name := "A1", url := "http://127.0.0.1:7070", enabled := true }] }
    true "m5" "M5" "macro" "a1"
    { id := "a1", name := "A1", url := "http://127.0.0.1:7070", enabled := true }
    (by decide) (by decide) rfl (by decide)).trans (by decide)

/-- C9 — Capture session read-once state machine: `start()` yields the
Listening state (armed slot, stale result cleared); while Listening the
first observed trigger is recorded with its text, port and source and the
state moves to Captured; a second observation leaves the captured state
unchanged (at most one capture per start); the line is still dispatched
through the resolver regardless of capture state; `poll()` on Captured
returns the result and moves to Idle, and further polls report Idle until
the next start; `cancel()` forces Idle from any state. -/
theorem C9_capture_read_once (s : CaptureState) (cfg : Config) (bank : Bank)
    (ok : Bool) (cmd : String) (port : Nat) (src : String) (r : CapturedCommand) :
    start_tcp_capture s = { active := true, result := none } ∧
    get_tcp_capture_status (start_tcp_capture s)
      = (CaptureStatus.listening, { active := true, result := none }) ∧
    capture_observe { active := true, result := none } cmd port src
      = { active := false, result := some ⟨cmd, port, src⟩ } ∧
    (∀ c2 p2 s2, capture_observe
        (capture_observe { active := true, result := none } cmd port src) c2 p2 s2
      = capture_observe { active := true, result := none } cmd port src) ∧
    (handle_tcp_line cfg bank ok s cmd port src).2
      = process_tcp_command cfg bank ok cmd port ∧
    get_tcp_capture_status { active := false, result := some r }
      = (CaptureStatus.captured r, { active := false, result := none }) ∧
    get_tcp_capture_status { active := false, result := none }
      = (CaptureStatus.idle, { active := false, result := none }) ∧
    cancel_tcp_capture s = { active := false, result := none } ∧
    get_tcp_capture_status (cancel_tcp_capture s)
      = (CaptureStatus.idle, { active := false, result := none }) :=
  ⟨rfl, rfl, rfl, fun _ _ _ => rfl, rfl, rfl, rfl, rfl, rfl⟩

end SAC
